import Mathlib

/-!
Verification of the `chain-assertions` library (modules `option.rs` and
`result.rs`): assertion helpers on optional and success/failure values that
either pass the value through unchanged or abort with a descriptive message.

The embedding models each method as a pure function returning a
`PanicResult`: `.ok v` for the pass-through path and `.panicked msg` for the
aborting path, where `msg` is the exact panic message built by the source
(format arguments rendered through an explicit `fmt : α → String` parameter
standing for the `Debug` rendering of the payload).  Build-time conditional
compilation (`debug_assertions` and the `passthrough` feature) is modelled
by a `Config` record; the conditional block of a debug-gated method is compiled
in exactly when `debug_assertions && !passthrough`.

For the predicate-qualified variants an additional `*_traced` version
returns, alongside the result, the list of payloads the user predicate was
applied to, instrumenting exactly the guard positions where the source
invokes the closure.
-/

namespace ChainAssertions

/-- Outcome of a call: either the returned value or a panic with its message. -/
inductive PanicResult (α : Type) : Type
  | ok (val : α)
  | panicked (msg : String)
deriving DecidableEq

/-- The Rust Result type: success `Ok(v)` or failure `Err(e)`. -/
inductive RResult (α ε : Type) : Type
  | Ok (v : α)
  | Err (e : ε)
deriving DecidableEq

/-- Build configuration: whether `debug_assertions` is enabled and whether
the `passthrough` feature is set. -/
structure Config : Type where
  debug_assertions : Bool
  passthrough : Bool
deriving DecidableEq

/-- The gate of the `cfg(all(debug_assertions, not(feature = "passthrough")))`
attribute: the guarded block is compiled in iff this is true. -/
def Config.checksEnabled (cfg : Config) : Bool :=
  cfg.debug_assertions && !cfg.passthrough

/-! ## option.rs -/

/-- Rust Option assert_some: panics on `None`, otherwise returns `self`. -/
def assert_some {α : Type} (x : Option α) : PanicResult (Option α) :=
  if x.isNone then .panicked ("Expected Some(_), got None") else .ok x

/-- Rust Option debug_assert_some: the check block is compiled in only when
debug assertions are on and `passthrough` is off. -/
def debug_assert_some {α : Type} (cfg : Config) (x : Option α) :
    PanicResult (Option α) :=
  if cfg.checksEnabled then
    if x.isNone then .panicked ("Expected Some(_), got None") else .ok x
  else .ok x

/-- Rust Option assert_some_and: requires `Some` and the condition to hold. -/
def assert_some_and {α : Type} (fmtT : α → String) (cond : α → Bool) :
    Option α → PanicResult (Option α)
  | some v =>
      if cond v then .ok (some v)
      else .panicked ("Condition not satisfied for Ok(" ++ fmtT v ++ ")")
  | none => .panicked ("Expected Some(_), got None")

/-- Rust Option debug_assert_some_and: same body, gated by the build config. -/
def debug_assert_some_and {α : Type} (cfg : Config) (fmtT : α → String)
    (cond : α → Bool) (x : Option α) : PanicResult (Option α) :=
  if cfg.checksEnabled then
    match x with
    | some v =>
        if cond v then .ok (some v)
        else .panicked ("Condition not satisfied for Ok(" ++ fmtT v ++ ")")
    | none => .panicked ("Expected Some(_), got None")
  else .ok x

/-- Rust Option assert_none: panics on `Some(v)`, rendering `v`. -/
def assert_none {α : Type} (fmtT : α → String) :
    Option α → PanicResult (Option α)
  | some v => .panicked ("Expected None, got Some(" ++ fmtT v ++ ")")
  | none => .ok none

/-- Rust Option debug_assert_none: same body, gated by the build config. -/
def debug_assert_none {α : Type} (cfg : Config) (fmtT : α → String)
    (x : Option α) : PanicResult (Option α) :=
  if cfg.checksEnabled then
    match x with
    | some v => .panicked ("Expected None, got Some(" ++ fmtT v ++ ")")
    | none => .ok none
  else .ok x

/-! ## result.rs -/

/-- Rust Result assert_ok: panics on `Err(e)`, rendering `e`. -/
def assert_ok {α ε : Type} (fmtE : ε → String) :
    RResult α ε → PanicResult (RResult α ε)
  | .Ok v => .ok (.Ok v)
  | .Err e => .panicked ("Expected Ok(_), got Err(" ++ fmtE e ++ ")")

/-- Rust Result debug_assert_ok: same body, gated by the build config. -/
def debug_assert_ok {α ε : Type} (cfg : Config) (fmtE : ε → String)
    (x : RResult α ε) : PanicResult (RResult α ε) :=
  if cfg.checksEnabled then
    match x with
    | .Ok v => .ok (.Ok v)
    | .Err e => .panicked ("Expected Ok(_), got Err(" ++ fmtE e ++ ")")
  else .ok x

/-- Rust Result assert_ok_and: requires `Ok` and the condition to hold. -/
def assert_ok_and {α ε : Type} (fmtT : α → String) (fmtE : ε → String)
    (cond : α → Bool) : RResult α ε → PanicResult (RResult α ε)
  | .Ok v =>
      if cond v then .ok (.Ok v)
      else .panicked ("Condition not satisfied for Ok(" ++ fmtT v ++ ")")
  | .Err e => .panicked ("Expected Ok(_), got Err(" ++ fmtE e ++ ")")

/-- Rust Result debug_assert_ok_and: same body, gated by the build config. -/
def debug_assert_ok_and {α ε : Type} (cfg : Config) (fmtT : α → String)
    (fmtE : ε → String) (cond : α → Bool) (x : RResult α ε) :
    PanicResult (RResult α ε) :=
  if cfg.checksEnabled then
    match x with
    | .Ok v =>
        if cond v then .ok (.Ok v)
        else .panicked ("Condition not satisfied for Ok(" ++ fmtT v ++ ")")
    | .Err e => .panicked ("Expected Ok(_), got Err(" ++ fmtE e ++ ")")
  else .ok x

/-- Rust Result assert_err: panics on `Ok(v)`, rendering `v`. -/
def assert_err {α ε : Type} (fmtT : α → String) :
    RResult α ε → PanicResult (RResult α ε)
  | .Err e => .ok (.Err e)
  | .Ok v => .panicked ("Expected Err(_), got Ok(" ++ fmtT v ++ ")")

/-- Rust Result debug_assert_err: same body, gated by the build config. -/
def debug_assert_err {α ε : Type} (cfg : Config) (fmtT : α → String)
    (x : RResult α ε) : PanicResult (RResult α ε) :=
  if cfg.checksEnabled then
    match x with
    | .Err e => .ok (.Err e)
    | .Ok v => .panicked ("Expected Err(_), got Ok(" ++ fmtT v ++ ")")
  else .ok x

/-- Rust Result assert_err_and: requires `Err` and the condition to hold. -/
def assert_err_and {α ε : Type} (fmtT : α → String) (fmtE : ε → String)
    (cond : ε → Bool) : RResult α ε → PanicResult (RResult α ε)
  | .Err e =>
      if cond e then .ok (.Err e)
      else .panicked ("Condition not satisfied for Err(" ++ fmtE e ++ ")")
  | .Ok v => .panicked ("Expected Err(_), got Ok(" ++ fmtT v ++ ")")

/-- Rust Result debug_assert_err_and: same body, gated by the build config. -/
def debug_assert_err_and {α ε : Type} (cfg : Config) (fmtT : α → String)
    (fmtE : ε → String) (cond : ε → Bool) (x : RResult α ε) :
    PanicResult (RResult α ε) :=
  if cfg.checksEnabled then
    match x with
    | .Err e =>
        if cond e then .ok (.Err e)
        else .panicked ("Condition not satisfied for Err(" ++ fmtE e ++ ")")
    | .Ok v => .panicked ("Expected Err(_), got Ok(" ++ fmtT v ++ ")")
  else .ok x

/-! ## Instrumented variants

Each `*_traced` function runs the same code and additionally records the
list of payloads the user predicate was applied to; the source applies the
closure exactly in the `if cond(v)` match guards, so the trace gains `v`
precisely when that guard is reached. -/

/-- Trace-instrumented assert_some_and: also returns the predicate argument trace. -/
def assert_some_and_traced {α : Type} (fmtT : α → String) (cond : α → Bool) :
    Option α → PanicResult (Option α) × List α
  | some v =>
      ((if cond v then .ok (some v)
        else .panicked ("Condition not satisfied for Ok(" ++ fmtT v ++ ")")),
       [v])
  | none => (.panicked ("Expected Some(_), got None"), [])

/-- Trace-instrumented debug_assert_some_and. -/
def debug_assert_some_and_traced {α : Type} (cfg : Config)
    (fmtT : α → String) (cond : α → Bool) (x : Option α) :
    PanicResult (Option α) × List α :=
  if cfg.checksEnabled then assert_some_and_traced fmtT cond x
  else (.ok x, [])

/-- Trace-instrumented assert_ok_and. -/
def assert_ok_and_traced {α ε : Type} (fmtT : α → String) (fmtE : ε → String)
    (cond : α → Bool) : RResult α ε → PanicResult (RResult α ε) × List α
  | .Ok v =>
      ((if cond v then .ok (.Ok v)
        else .panicked ("Condition not satisfied for Ok(" ++ fmtT v ++ ")")),
       [v])
  | .Err e => (.panicked ("Expected Ok(_), got Err(" ++ fmtE e ++ ")"), [])

/-- Trace-instrumented debug_assert_ok_and. -/
def debug_assert_ok_and_traced {α ε : Type} (cfg : Config)
    (fmtT : α → String) (fmtE : ε → String) (cond : α → Bool)
    (x : RResult α ε) : PanicResult (RResult α ε) × List α :=
  if cfg.checksEnabled then assert_ok_and_traced fmtT fmtE cond x
  else (.ok x, [])

/-- Trace-instrumented assert_err_and. -/
def assert_err_and_traced {α ε : Type} (fmtT : α → String)
    (fmtE : ε → String) (cond : ε → Bool) :
    RResult α ε → PanicResult (RResult α ε) × List ε
  | .Err e =>
      ((if cond e then .ok (.Err e)
        else .panicked ("Condition not satisfied for Err(" ++ fmtE e ++ ")")),
       [e])
  | .Ok v => (.panicked ("Expected Err(_), got Ok(" ++ fmtT v ++ ")"), [])

/-- Trace-instrumented debug_assert_err_and. -/
def debug_assert_err_and_traced {α ε : Type} (cfg : Config)
    (fmtT : α → String) (fmtE : ε → String) (cond : ε → Bool)
    (x : RResult α ε) : PanicResult (RResult α ε) × List ε :=
  if cfg.checksEnabled then assert_err_and_traced fmtT fmtE cond x
  else (.ok x, [])


/-! ## Helper lemmas -/

/-- Two panic messages with distinct constant first characters are never
equal, whatever the rendered payloads are. -/
theorem msg_append_ne_of_head_ne (p₁ p₂ s₁ s₂ q₁ q₂ : String)
    (h₁ : p₁.data.head? = some 'E') (h₂ : p₂.data.head? = some 'C') :
    p₁ ++ s₁ ++ q₁ ≠ p₂ ++ s₂ ++ q₂ := by
  intro h
  have hd := congrArg (fun s => s.data.head?) h
  simp [String.data_append] at hd
  rcases p₁.data with _ | ⟨c₁, t₁⟩ <;> rcases p₂.data with _ | ⟨c₂, t₂⟩ <;>
    simp_all

/-! ## Claim theorems -/

/-- C1: every always-checked assert operation, applied to an input whose tag
matches (and, for the predicate-qualified variants, whose payload satisfies
the predicate), returns exactly the input value unchanged. -/
theorem assert_matching_tag_identity {α ε : Type}
    (fmtT : α → String) (fmtE : ε → String)
    (condA : α → Bool) (condE : ε → Bool) (v : α) (e : ε)
    (hA : condA v = true) (hE : condE e = true) :
    assert_some (some v) = .ok (some v) ∧
    assert_none fmtT (none : Option α) = .ok none ∧
    assert_ok fmtE (RResult.Ok v : RResult α ε) = .ok (.Ok v) ∧
    assert_err fmtT (RResult.Err e : RResult α ε) = .ok (.Err e) ∧
    assert_some_and fmtT condA (some v) = .ok (some v) ∧
    assert_ok_and fmtT fmtE condA (RResult.Ok v : RResult α ε) = .ok (.Ok v) ∧
    assert_err_and fmtT fmtE condE (RResult.Err e : RResult α ε) = .ok (.Err e) := by
  refine ⟨rfl, rfl, rfl, rfl, ?_, ?_, ?_⟩ <;>
    simp [assert_some_and, assert_ok_and, assert_err_and, hA, hE]

/-- Witness for C1 at concrete inputs: predicate `10 ≤ n` holds at 21. -/
theorem assert_matching_tag_identity_witness :
    (Nat.ble 10 21 = true) ∧
    assert_some_and (fun n : Nat => toString n) (fun n => Nat.ble 10 n)
      (some 21) = .ok (some 21) :=
  ⟨by decide,
   (assert_matching_tag_identity (fun n : Nat => toString n)
     (fun n : Nat => toString n) (fun n => Nat.ble 10 n)
     (fun n => Nat.ble 10 n) 21 21 (by decide) (by decide)).2.2.2.2.1⟩

/-- C2: on a mismatched tag every always-checked operation panics; when the
rejected case carries a payload the message contains its rendering
(`assert_none` on some v renders v, `assert_ok` on Err e renders e,
`assert_err` on Ok v renders v), and `assert_some` on none panics with the
fixed payload-free message. -/
theorem assert_mismatch_panics_with_payload {α ε : Type}
    (fmtT : α → String) (fmtE : ε → String) (v : α) (e : ε) :
    assert_some (none : Option α) = .panicked ("Expected Some(_), got None") ∧
    assert_none fmtT (some v) =
      .panicked ("Expected None, got Some(" ++ fmtT v ++ ")") ∧
    (∃ p q, assert_none fmtT (some v) = .panicked (p ++ fmtT v ++ q)) ∧
    assert_ok fmtE (RResult.Err e : RResult α ε) =
      .panicked ("Expected Ok(_), got Err(" ++ fmtE e ++ ")") ∧
    (∃ p q, assert_ok fmtE (RResult.Err e : RResult α ε) =
      .panicked (p ++ fmtE e ++ q)) ∧
    assert_err fmtT (RResult.Ok v : RResult α ε) =
      .panicked ("Expected Err(_), got Ok(" ++ fmtT v ++ ")") ∧
    (∃ p q, assert_err fmtT (RResult.Ok v : RResult α ε) =
      .panicked (p ++ fmtT v ++ q)) :=
  ⟨rfl, rfl, ⟨"Expected None, got Some(", ")", rfl⟩,
   rfl, ⟨"Expected Ok(_), got Err(", ")", rfl⟩,
   rfl, ⟨"Expected Err(_), got Ok(", ")", rfl⟩⟩

/-- C3 counterexample: `assert_some_and` on some 19 with predicate 20 ≤ n
panics with the payload wrapped in Ok(...), not with the bare-payload
message the claim states. -/
theorem assert_some_and_message_counterexample :
    assert_some_and (fun n : Nat => toString n) (fun n => Nat.ble 20 n)
      (some 19) = .panicked ("Condition not satisfied for Ok(19)") ∧
    ("Condition not satisfied for Ok(19)" : String) ≠
      "Condition not satisfied for 19" := by
  exact ⟨by decide, by decide⟩

/-- C3 amended: `assert_some_and` on Some(v) with a failing predicate panics
with the message Condition not satisfied for Ok(<payload>): the rendered
payload appears wrapped in the success-case Ok(...) wrapper borrowed from
the result module, not bare. -/
theorem assert_some_and_message_has_ok_wrapper {α : Type}
    (fmtT : α → String) (cond : α → Bool) (v : α) (h : cond v = false) :
    assert_some_and fmtT cond (some v) =
      .panicked ("Condition not satisfied for Ok(" ++ fmtT v ++ ")") := by
  simp [assert_some_and, h]

/-- Witness for the amended C3 at some 19 with predicate 20 ≤ n. -/
theorem assert_some_and_message_has_ok_wrapper_witness :
    (Nat.ble 20 19 = false) ∧
    assert_some_and (fun n : Nat => toString n) (fun n => Nat.ble 20 n)
      (some 19) =
      .panicked ("Condition not satisfied for Ok(" ++ toString (19 : Nat) ++ ")") :=
  ⟨by decide,
   assert_some_and_message_has_ok_wrapper (fun n : Nat => toString n)
     (fun n => Nat.ble 20 n) 19 (by decide)⟩

/-- C4: each predicate-qualified operation applies the predicate at most
once per call and only when the tag matches; on a tag mismatch the trace is
empty and the outcome is identical for any two predicates, in every build
configuration for the debug variants. -/
theorem predicate_only_called_on_matching_tag {α ε : Type} (cfg : Config)
    (fmtT : α → String) (fmtE : ε → String)
    (c₁ c₂ : α → Bool) (d₁ d₂ : ε → Bool)
    (x : Option α) (y : RResult α ε) (v : α) (e : ε) :
    (assert_some_and_traced fmtT c₁ x).2.length ≤ 1 ∧
    (assert_ok_and_traced fmtT fmtE c₁ y).2.length ≤ 1 ∧
    (assert_err_and_traced fmtT fmtE d₁ y).2.length ≤ 1 ∧
    (debug_assert_some_and_traced cfg fmtT c₁ x).2.length ≤ 1 ∧
    (debug_assert_ok_and_traced cfg fmtT fmtE c₁ y).2.length ≤ 1 ∧
    (debug_assert_err_and_traced cfg fmtT fmtE d₁ y).2.length ≤ 1 ∧
    (assert_some_and_traced fmtT c₁ (none : Option α)).2 = [] ∧
    (assert_ok_and_traced fmtT fmtE c₁ (RResult.Err e : RResult α ε)).2 = [] ∧
    (assert_err_and_traced fmtT fmtE d₁ (RResult.Ok v : RResult α ε)).2 = [] ∧
    (debug_assert_some_and_traced cfg fmtT c₁ (none : Option α)).2 = [] ∧
    (debug_assert_ok_and_traced cfg fmtT fmtE c₁ (RResult.Err e : RResult α ε)).2 = [] ∧
    (debug_assert_err_and_traced cfg fmtT fmtE d₁ (RResult.Ok v : RResult α ε)).2 = [] ∧
    assert_some_and fmtT c₁ (none : Option α) =
      assert_some_and fmtT c₂ (none : Option α) ∧
    assert_ok_and fmtT fmtE c₁ (RResult.Err e : RResult α ε) =
      assert_ok_and fmtT fmtE c₂ (RResult.Err e : RResult α ε) ∧
    assert_err_and fmtT fmtE d₁ (RResult.Ok v : RResult α ε) =
      assert_err_and fmtT fmtE d₂ (RResult.Ok v : RResult α ε) ∧
    debug_assert_some_and cfg fmtT c₁ (none : Option α) =
      debug_assert_some_and cfg fmtT c₂ (none : Option α) ∧
    debug_assert_ok_and cfg fmtT fmtE c₁ (RResult.Err e : RResult α ε) =
      debug_assert_ok_and cfg fmtT fmtE c₂ (RResult.Err e : RResult α ε) ∧
    debug_assert_err_and cfg fmtT fmtE d₁ (RResult.Ok v : RResult α ε) =
      debug_assert_err_and cfg fmtT fmtE d₂ (RResult.Ok v : RResult α ε) := by
  cases hce : cfg.checksEnabled <;> cases x <;> cases y <;>
    simp [assert_some_and_traced, assert_ok_and_traced, assert_err_and_traced,
      debug_assert_some_and_traced, debug_assert_ok_and_traced,
      debug_assert_err_and_traced, assert_some_and, assert_ok_and,
      assert_err_and, debug_assert_some_and, debug_assert_ok_and,
      debug_assert_err_and, hce]

/-- C5: with debug assertions enabled and passthrough unset, every
debug-gated operation agrees with its always-checked counterpart on every
input: same pass-through value, same panic condition, same panic message. -/
theorem debug_ops_equal_checked_when_enabled {α ε : Type} (cfg : Config)
    (hd : cfg.debug_assertions = true) (hp : cfg.passthrough = false)
    (fmtT : α → String) (fmtE : ε → String)
    (condA : α → Bool) (condE : ε → Bool)
    (x : Option α) (y : RResult α ε) :
    debug_assert_some cfg x = assert_some x ∧
    debug_assert_some_and cfg fmtT condA x = assert_some_and fmtT condA x ∧
    debug_assert_none cfg fmtT x = assert_none fmtT x ∧
    debug_assert_ok cfg fmtE y = assert_ok fmtE y ∧
    debug_assert_ok_and cfg fmtT fmtE condA y =
      assert_ok_and fmtT fmtE condA y ∧
    debug_assert_err cfg fmtT y = assert_err fmtT y ∧
    debug_assert_err_and cfg fmtT fmtE condE y =
      assert_err_and fmtT fmtE condE y := by
  have hce : cfg.checksEnabled = true := by
    simp [Config.checksEnabled, hd, hp]
  cases x <;> cases y <;>
    simp [debug_assert_some, debug_assert_some_and, debug_assert_none,
      debug_assert_ok, debug_assert_ok_and, debug_assert_err,
      debug_assert_err_and, assert_some, assert_some_and, assert_none,
      assert_ok, assert_ok_and, assert_err, assert_err_and, hce]

/-- Witness for C5 at the config with debug assertions on and passthrough
off, at a concrete input. -/
theorem debug_ops_equal_checked_when_enabled_witness :
    ((⟨true, false⟩ : Config).debug_assertions = true) ∧
    ((⟨true, false⟩ : Config).passthrough = false) ∧
    debug_assert_some (⟨true, false⟩ : Config) (some (7 : Nat)) =
      assert_some (some (7 : Nat)) :=
  ⟨rfl, rfl,
   (debug_ops_equal_checked_when_enabled (⟨true, false⟩ : Config) rfl rfl
     (fun n : Nat => toString n) (fun n : Nat => toString n)
     (fun _ => true) (fun _ => true) (some 7)
     (RResult.Ok 0 : RResult Nat Nat)).1⟩

/-- C6: with debug assertions disabled or passthrough set, every debug-gated
operation is the identity on every input, and the predicate of the
debug-gated variants is never evaluated. -/
theorem debug_ops_identity_when_disabled {α ε : Type} (cfg : Config)
    (h : cfg.debug_assertions = false ∨ cfg.passthrough = true)
    (fmtT : α → String) (fmtE : ε → String)
    (condA : α → Bool) (condE : ε → Bool)
    (x : Option α) (y : RResult α ε) :
    debug_assert_some cfg x = .ok x ∧
    debug_assert_some_and cfg fmtT condA x = .ok x ∧
    debug_assert_none cfg fmtT x = .ok x ∧
    debug_assert_ok cfg fmtE y = .ok y ∧
    debug_assert_ok_and cfg fmtT fmtE condA y = .ok y ∧
    debug_assert_err cfg fmtT y = .ok y ∧
    debug_assert_err_and cfg fmtT fmtE condE y = .ok y ∧
    (debug_assert_some_and_traced cfg fmtT condA x).2 = [] ∧
    (debug_assert_ok_and_traced cfg fmtT fmtE condA y).2 = [] ∧
    (debug_assert_err_and_traced cfg fmtT fmtE condE y).2 = [] := by
  have hce : cfg.checksEnabled = false := by
    rcases h with h | h <;> simp [Config.checksEnabled, h]
  simp [debug_assert_some, debug_assert_some_and, debug_assert_none,
    debug_assert_ok, debug_assert_ok_and, debug_assert_err,
    debug_assert_err_and, debug_assert_some_and_traced,
    debug_assert_ok_and_traced, debug_assert_err_and_traced, hce]

/-- Witness for C6 at the passthrough config: a would-fail input passes
through unchanged. -/
theorem debug_ops_identity_when_disabled_witness :
    ((⟨true, true⟩ : Config).debug_assertions = false ∨
      (⟨true, true⟩ : Config).passthrough = true) ∧
    debug_assert_some (⟨true, true⟩ : Config) (none : Option Nat) =
      .ok (none : Option Nat) :=
  ⟨Or.inr rfl,
   (debug_ops_identity_when_disabled (⟨true, true⟩ : Config) (Or.inr rfl)
     (fun n : Nat => toString n) (fun n : Nat => toString n)
     (fun _ => false) (fun _ => false) (none : Option Nat)
     (RResult.Ok 0 : RResult Nat Nat)).1⟩

/-- C7: the always-checked operations check unconditionally: whatever the
build configuration, they panic on a mismatched tag or failed predicate. -/
theorem checked_ops_panic_in_every_config {α ε : Type} (cfg : Config)
    (fmtT : α → String) (fmtE : ε → String)
    (condA : α → Bool) (condE : ε → Bool) (v : α) (e : ε)
    (hA : condA v = false) (hE : condE e = false) :
    (cfg.debug_assertions = true ∨ cfg.debug_assertions = false) ∧
    assert_some (none : Option α) = .panicked ("Expected Some(_), got None") ∧
    assert_none fmtT (some v) =
      .panicked ("Expected None, got Some(" ++ fmtT v ++ ")") ∧
    assert_ok fmtE (RResult.Err e : RResult α ε) =
      .panicked ("Expected Ok(_), got Err(" ++ fmtE e ++ ")") ∧
    assert_err fmtT (RResult.Ok v : RResult α ε) =
      .panicked ("Expected Err(_), got Ok(" ++ fmtT v ++ ")") ∧
    assert_some_and fmtT condA (some v) =
      .panicked ("Condition not satisfied for Ok(" ++ fmtT v ++ ")") ∧
    assert_ok_and fmtT fmtE condA (RResult.Ok v : RResult α ε) =
      .panicked ("Condition not satisfied for Ok(" ++ fmtT v ++ ")") ∧
    assert_err_and fmtT fmtE condE (RResult.Err e : RResult α ε) =
      .panicked ("Condition not satisfied for Err(" ++ fmtE e ++ ")") := by
  refine ⟨Bool.eq_false_or_eq_true cfg.debug_assertions, rfl, rfl, rfl, rfl, ?_, ?_, ?_⟩ <;>
    simp [assert_some_and, assert_ok_and, assert_err_and, hA, hE]

/-- Witness for C7 at a concrete config and inputs with a failing
predicate. -/
theorem checked_ops_panic_in_every_config_witness :
    (Nat.ble 20 19 = false) ∧
    assert_some_and (fun n : Nat => toString n) (fun n => Nat.ble 20 n)
      (some 19) =
      .panicked ("Condition not satisfied for Ok(" ++ toString (19 : Nat) ++ ")") :=
  ⟨by decide,
   (checked_ops_panic_in_every_config (⟨false, true⟩ : Config)
     (fun n : Nat => toString n) (fun n : Nat => toString n)
     (fun n => Nat.ble 20 n) (fun n => Nat.ble 20 n) 19 19
     (by decide) (by decide)).2.2.2.2.2.1⟩

/-- C8: the always-checked assert_ok_and on Ok(19) with the predicate
20 ≤ v panics, and the message names the unsatisfied condition and contains
the rendered value 19. -/
theorem assert_ok_and_nineteen_scenario :
    assert_ok_and (fun n : Nat => toString n) (fun n : Nat => toString n)
      (fun v => Nat.ble 20 v) (RResult.Ok 19 : RResult Nat Nat) =
      .panicked ("Condition not satisfied for Ok(19)") ∧
    (∃ q, ("Condition not satisfied for Ok(19)" : String) =
      "Condition not satisfied" ++ q) ∧
    (∃ p q, ("Condition not satisfied for Ok(19)" : String) =
      p ++ "19" ++ q) :=
  ⟨by decide, ⟨" for Ok(19)", by decide⟩,
   ⟨"Condition not satisfied for Ok(", ")", by decide⟩⟩

/-- C9: on a tag-mismatched input the predicate-qualified result operations
panic with the tag-mismatch message rendering the payload, never with the
condition-not-satisfied message, for every predicate. -/
theorem tag_mismatch_priority_over_predicate {α ε : Type}
    (fmtT : α → String) (fmtE : ε → String)
    (condA : α → Bool) (condE : ε → Bool) (v : α) (e : ε) :
    assert_err_and fmtT fmtE condE (RResult.Ok v : RResult α ε) =
      .panicked ("Expected Err(_), got Ok(" ++ fmtT v ++ ")") ∧
    assert_ok_and fmtT fmtE condA (RResult.Err e : RResult α ε) =
      .panicked ("Expected Ok(_), got Err(" ++ fmtE e ++ ")") ∧
    (∀ s : String, assert_err_and fmtT fmtE condE (RResult.Ok v : RResult α ε) ≠
      .panicked ("Condition not satisfied for Err(" ++ s ++ ")")) ∧
    (∀ s : String, assert_ok_and fmtT fmtE condA (RResult.Err e : RResult α ε) ≠
      .panicked ("Condition not satisfied for Ok(" ++ s ++ ")")) := by
  refine ⟨rfl, rfl, ?_, ?_⟩ <;> intro s h
  · have h2 : ("Expected Err(_), got Ok(" ++ fmtT v ++ ")" : String) =
        "Condition not satisfied for Err(" ++ s ++ ")" := by
      simpa [assert_err_and] using h
    exact msg_append_ne_of_head_ne "Expected Err(_), got Ok("
      "Condition not satisfied for Err(" (fmtT v) s ")" ")"
      (by decide) (by decide) h2
  · have h2 : ("Expected Ok(_), got Err(" ++ fmtE e ++ ")" : String) =
        "Condition not satisfied for Ok(" ++ s ++ ")" := by
      simpa [assert_ok_and] using h
    exact msg_append_ne_of_head_ne "Expected Ok(_), got Err("
      "Condition not satisfied for Ok(" (fmtE e) s ")" ")"
      (by decide) (by decide) h2

/-- C10: on a tag mismatch each predicate-qualified operation panics with
exactly the same message as the corresponding plain assertion. -/
theorem and_variant_mismatch_message_matches_plain {α ε : Type}
    (fmtT : α → String) (fmtE : ε → String) (condA : α → Bool) (e : ε) :
    assert_some_and fmtT condA (none : Option α) =
      assert_some (none : Option α) ∧
    assert_some_and fmtT condA (none : Option α) =
      .panicked ("Expected Some(_), got None") ∧
    assert_ok_and fmtT fmtE condA (RResult.Err e : RResult α ε) =
      assert_ok fmtE (RResult.Err e : RResult α ε) ∧
    assert_ok_and fmtT fmtE condA (RResult.Err e : RResult α ε) =
      .panicked ("Expected Ok(_), got Err(" ++ fmtE e ++ ")") :=
  ⟨rfl, rfl, rfl, rfl⟩

end ChainAssertions
